import Mathlib

/-!
Verification of the CheeseHouse game/voucher workflow.

Shallow embedding of the Go sources:
* `internal/config/config.go` (GameConfig, PhoneValidation, defaults),
* `internal/services` game service (ProcesarResultadoJuego and helpers),
* `internal/services/whatsapp_service.go` (NormalizarTelefono,
  ValidarTelefonoArgentino),
* `internal/services/admin_service.go` (CanjearVoucher),
* the GORM repositories, modelled as pure operations on an in-memory `DB`
  (a list of customers and a list of vouchers; `Crear` appends with a fresh
  primary key, `Actualizar` replaces the row whose primary key matches).

Modelling conventions: Go `float64` times are modelled as `ℚ`; Go `int`
counters as `ℤ`; `time.Time` as an abstract Unix-seconds instant in `ℤ`
(`AddDate(0,0,d)` becomes adding `d` whole days of 86400 seconds); Go strings
are Lean `String`s, manipulated through their underlying `List Char`.
The nondeterministic environment inputs of the service (`time.Now()`,
`rand.Intn`) are explicit parameters.
-/

namespace CheeseHouse

/-- Game settings, from `config.GameConfig`. -/
structure GameConfig where
  minTargetTime : ℚ
  maxTargetTime : ℚ
  winDiscount : ℤ
  loseDiscount : ℤ
  tolerance : ℚ
  voucherValidityDays : ℤ
  gamesRequireApproval : ℤ
deriving DecidableEq, Repr

/-- The defaults installed by `config.Load` (no environment overrides). -/
def defaultGameConfig : GameConfig where
  minTargetTime := 5
  maxTargetTime := 20
  winDiscount := 30
  loseDiscount := 10
  tolerance := 1/10
  voucherValidityDays := 30
  gamesRequireApproval := 3

/-- Phone validation settings, from `config.PhoneValidation`. -/
structure PhoneValidation where
  countryCode : List Char
  minLength : Nat
  maxLength : Nat
  allowIntl : Bool
  areaCodes : List (List Char)
deriving DecidableEq, Repr

/-- The fixed configuration returned by `Config.GetPhoneValidation`. -/
def getPhoneValidation : PhoneValidation where
  countryCode := String.toList "54"
  minLength := 10
  maxLength := 15
  allowIntl := true
  areaCodes := (["11", "221", "261", "264", "266", "280", "290", "291", "292",
    "293", "294", "295", "296", "297", "298", "299", "336", "341", "342",
    "343", "344", "345", "346", "347", "348", "349", "351", "352", "353",
    "354", "356", "357", "358", "359", "370", "371", "372", "373", "374",
    "375", "376", "377", "378", "379", "380", "381", "382", "383", "384",
    "385", "386", "387", "388", "389"]).map String.toList

/-- `Config.GenerateVoucherCode`: the fixed voucher prefix. -/
def generateVoucherCode : String := "CH"

/-- `models.Resultado`: the client-submitted game result. -/
structure Resultado where
  gano : Bool
  tiempoObjetivo : ℚ
  tiempoObtenido : ℚ
  tolerancia : ℚ
deriving DecidableEq, Repr

/-- `models.ClienteData`. -/
structure ClienteData where
  nombre : String
  apellido : String
  telefono : String
deriving DecidableEq, Repr

/-- `models.GameResult`. -/
structure GameResult where
  clienteData : ClienteData
  resultado : Resultado
deriving DecidableEq, Repr

/-- `models.Cliente` (timestamps as abstract instants). -/
structure Cliente where
  id : Nat
  nombre : String
  apellido : String
  telefono : String
  fechaRegistro : ℤ
  fechaUltimoJuego : Option ℤ
  totalJuegos : ℤ
  juegosGanados : ℤ
  juegosPerdidos : ℤ
  estado : String
deriving DecidableEq, Repr

/-- `models.Voucher`. -/
structure Voucher where
  id : Nat
  codigo : String
  clienteID : Nat
  tipo : String
  descuento : ℤ
  ganado : Option Bool
  fechaEmision : ℤ
  fechaVencimiento : ℤ
  fechaUso : Option ℤ
  usado : Bool
  usuarioCanje : Option Nat
  notas : String
deriving DecidableEq, Repr

/-- `models.VoucherResponse`; omitted fields default to Go zero values.
The Go response carries the expiry as a formatted date string; the model
keeps the timestamp itself. -/
structure VoucherResponse where
  success : Bool := false
  message : String := ""
  codigo : String := ""
  descuento : ℤ := 0
  fechaVencimiento : ℤ := 0
  necesitaAprobacion : Bool := false
  clienteID : Nat := 0
  esClienteNuevo : Bool := false
deriving DecidableEq, Repr

/-- `models.CanjearVoucherResponse`. -/
structure CanjearVoucherResponse where
  success : Bool := false
  message : String := ""
  descuento : ℤ := 0
  cliente : String := ""
deriving DecidableEq, Repr

/-- The relational store: customers and vouchers tables plus their
auto-increment counters. -/
structure DB where
  clientes : List Cliente
  vouchers : List Voucher
  nextClienteID : Nat
  nextVoucherID : Nat
deriving DecidableEq, Repr

/-! ### Phone normalisation and validation (whatsapp_service.go) -/

/-- One `strings.ReplaceAll(s, c, "")` step: drop every occurrence of `c`. -/
def removeAllChar (c : Char) (l : List Char) : List Char :=
  l.filter (fun x => x ≠ c)

/-- The formatting-stripping common to `NormalizarTelefono` and
`ValidarTelefonoArgentino`: remove spaces, dashes and parentheses. -/
def cleanChars (l : List Char) : List Char :=
  removeAllChar ')' (removeAllChar '(' (removeAllChar '-' (removeAllChar ' ' l)))

/-- `strings.HasPrefix(s, "+")`. -/
def startsWithPlus : List Char → Bool
  | '+' :: _ => true
  | _ => false

/-- `NormalizarTelefono` on the underlying character list: strip formatting,
then prepend "+54" to a 10-or-more character number lacking a "+". -/
def normalizarL (l : List Char) : List Char :=
  let cleanPhone := cleanChars l
  if !startsWithPlus cleanPhone && decide (10 ≤ cleanPhone.length) then
    '+' :: '5' :: '4' :: cleanPhone
  else
    cleanPhone

/-- `WhatsAppService.NormalizarTelefono`. -/
def NormalizarTelefono (telefono : String) : String :=
  ⟨normalizarL telefono.data⟩

/-- `WhatsAppService.ValidarTelefonoArgentino` on the character list.
Error messages keep the static part of the Go format strings. -/
def validarTelefonoL (pv : PhoneValidation) (telefono : List Char) : Except String Unit :=
  let cleanPhone := cleanChars telefono
  if cleanPhone.length < pv.minLength ∨ cleanPhone.length > pv.maxLength then
    Except.error "número de teléfono debe tener entre MinLength y MaxLength dígitos"
  else if !(pv.countryCode.isPrefixOf cleanPhone) then
    if !pv.allowIntl then
      Except.error "número debe ser argentino (+54)"
    else if !startsWithPlus cleanPhone then
      Except.error "número internacional debe empezar con +"
    else
      Except.ok ()
  else
    let withoutCountryCode := cleanPhone.drop pv.countryCode.length
    let isValidAreaCode := pv.areaCodes.any (fun a => a.isPrefixOf withoutCountryCode)
    if !isValidAreaCode && decide (withoutCountryCode.length < 10) then
      Except.error "código de área no válido para Argentina"
    else
      Except.ok ()

/-- `WhatsAppService.ValidarTelefonoArgentino`. -/
def ValidarTelefonoArgentino (pv : PhoneValidation) (telefono : String) : Except String Unit :=
  validarTelefonoL pv telefono.data

/-! ### Game rules evaluator (game service) -/

/-- `determinarSiGano`: win iff the absolute difference is within tolerance. -/
def determinarSiGano (cfg : GameConfig) (resultado : Resultado) : Bool :=
  decide (|resultado.tiempoObtenido - resultado.tiempoObjetivo| ≤ cfg.tolerance)

/-- `validarDatosJuego`: range checks on target and achieved times.
(The anti-cheat small-difference branch only logs and is elided.) -/
def validarDatosJuego (cfg : GameConfig) (resultado : Resultado) : Except String Unit :=
  if resultado.tiempoObjetivo < cfg.minTargetTime ∨
      resultado.tiempoObjetivo > cfg.maxTargetTime then
    Except.error "tiempo objetivo fuera de rango"
  else if resultado.tiempoObtenido < 0 ∨ resultado.tiempoObtenido > 30 then
    Except.error "tiempo obtenido sospechoso"
  else
    Except.ok ()

/-! ### Voucher code generation (game service) -/

/-- The decimal digit characters of `n`, most significant first (`%d`). -/
def natToDecChars (n : Nat) : List Char :=
  if n = 0 then ['0']
  else (Nat.digits 10 n).reverse.map (fun d => Char.ofNat (48 + d))

/-- Left-pad a character list with `'0'` up to width `w` (`%0wd`). -/
def padLeftZeros (w : Nat) (l : List Char) : List Char :=
  List.replicate (w - l.length) '0' ++ l

/-- `fmt.Sprintf("%0wd", n)` as a character list. -/
def sprintfNat (w : Nat) (n : Nat) : List Char :=
  padLeftZeros w (natToDecChars n)

/-- `generarCodigoVoucher`: prefix "CH", the Unix timestamp `ts` reduced
mod 100000 zero-padded to five digits, and the `rand.Intn(1000)` draw `rnd`
zero-padded to three digits. -/
def generarCodigoVoucher (ts rnd : Nat) : String :=
  ⟨generateVoucherCode.data ++ sprintfNat 5 (ts % 100000) ++ sprintfNat 3 rnd⟩

/-! ### Repository operations (GORM CRUD on the in-memory store) -/

/-- `ClienteRepository.BuscarPorTelefono` (`WHERE telefono = ?`, first row). -/
def buscarClientePorTelefono (db : DB) (telefono : String) : Option Cliente :=
  db.clientes.find? (fun c => c.telefono == telefono)

/-- `ClienteRepository.Crear`: insert with a fresh auto-increment id. -/
def crearClienteDB (db : DB) (c : Cliente) : Cliente × DB :=
  let c' := { c with id := db.nextClienteID }
  (c', { db with
    clientes := db.clientes ++ [c']
    nextClienteID := db.nextClienteID + 1 })

/-- `ClienteRepository.Actualizar` (`db.Save`): replace the row whose
primary key matches. -/
def actualizarClienteDB (db : DB) (c : Cliente) : DB :=
  { db with clientes := db.clientes.map (fun x => if x.id = c.id then c else x) }

/-- `VoucherRepository.Crear`: insert with a fresh auto-increment id. -/
def crearVoucherDB (db : DB) (v : Voucher) : Voucher × DB :=
  let v' := { v with id := db.nextVoucherID }
  (v', { db with
    vouchers := db.vouchers ++ [v']
    nextVoucherID := db.nextVoucherID + 1 })

/-- `VoucherRepository.Actualizar` (`db.Save`): replace the row whose
primary key matches. -/
def actualizarVoucherDB (db : DB) (v : Voucher) : DB :=
  { db with vouchers := db.vouchers.map (fun x => if x.id = v.id then v else x) }

/-- `VoucherRepository.BuscarPorCodigo` (`WHERE codigo = ?`, first row). -/
def buscarVoucherPorCodigo (db : DB) (codigo : String) : Option Voucher :=
  db.vouchers.find? (fun v => v.codigo == codigo)

/-! ### Game service pipeline -/

/-- `crearOBuscarCliente`: look the customer up by phone; create it with
zeroed counters when absent, overwrite a changed name when present. -/
def crearOBuscarCliente (now : ℤ) (db : DB) (clienteData : ClienteData) :
    Cliente × Bool × DB :=
  match buscarClientePorTelefono db clienteData.telefono with
  | none =>
    let nuevoCliente : Cliente := {
      id := 0
      nombre := clienteData.nombre
      apellido := clienteData.apellido
      telefono := clienteData.telefono
      fechaRegistro := now
      fechaUltimoJuego := none
      totalJuegos := 0
      juegosGanados := 0
      juegosPerdidos := 0
      estado := "activo" }
    let r := crearClienteDB db nuevoCliente
    (r.1, true, r.2)
  | some cliente =>
    if cliente.nombre ≠ clienteData.nombre ∨ cliente.apellido ≠ clienteData.apellido then
      let cliente' := { cliente with
        nombre := clienteData.nombre
        apellido := clienteData.apellido }
      (cliente', false, actualizarClienteDB db cliente')
    else
      (cliente, false, db)

/-- Seconds in a day; `time.AddDate(0, 0, d)` on the Unix-seconds timeline. -/
def secondsPerDay : ℤ := 86400

/-- `time.Now().AddDate(0, 0, d)`. -/
def addDays (t d : ℤ) : ℤ := t + d * secondsPerDay

/-- `generarMensajeExito` (numeric interpolation via `toString`). -/
def generarMensajeExito (gano : Bool) (descuento : ℤ) : String :=
  if gano then
    "¡Felicitaciones! Ganaste un " ++ toString descuento ++
      "% de descuento. Te enviamos el código por WhatsApp."
  else
    "¡Casi! No te preocupes, tienes un " ++ toString descuento ++
      "% de descuento de consolación. Revisa tu WhatsApp."

/-- `crearVoucherYActualizarCliente`: pick the discount by outcome, insert
the voucher, then bump the customer's counters in a second write. -/
def crearVoucherYActualizarCliente (cfg : GameConfig) (now : ℤ) (ts rnd : Nat)
    (db : DB) (cliente : Cliente) (gano : Bool) : Voucher × DB :=
  let descuento := if gano then cfg.winDiscount else cfg.loseDiscount
  let tipo := if gano then "juego_ganado" else "juego_perdido"
  let voucher : Voucher := {
    id := 0
    codigo := generarCodigoVoucher ts rnd
    clienteID := cliente.id
    tipo := tipo
    descuento := descuento
    ganado := some gano
    fechaEmision := now
    fechaVencimiento := addDays now cfg.voucherValidityDays
    fechaUso := none
    usado := false
    usuarioCanje := none
    notas := "" }
  let r := crearVoucherDB db voucher
  let cliente' := { cliente with
    totalJuegos := cliente.totalJuegos + 1
    fechaUltimoJuego := some now
    juegosGanados := if gano then cliente.juegosGanados + 1 else cliente.juegosGanados
    juegosPerdidos := if gano then cliente.juegosPerdidos else cliente.juegosPerdidos + 1 }
  (r.1, actualizarClienteDB r.2 cliente')

/-- `GameService.ProcesarResultadoJuego`: validate phone, validate game data,
evaluate win/lose, find-or-create the customer, gate on the approval
threshold, then issue the voucher and update the counters. `now`, `ts` and
`rnd` are the environment inputs (clock and random draw). -/
def procesarResultadoJuego (cfg : GameConfig) (pv : PhoneValidation) (now : ℤ)
    (ts rnd : Nat) (db : DB) (gameResult : GameResult) : VoucherResponse × DB :=
  match ValidarTelefonoArgentino pv (NormalizarTelefono gameResult.clienteData.telefono) with
  | Except.error e =>
    ({ success := false, message := "Número de teléfono no válido: " ++ e }, db)
  | Except.ok _ =>
  match validarDatosJuego cfg gameResult.resultado with
  | Except.error e =>
    ({ success := false, message := "Datos del juego inválidos: " ++ e }, db)
  | Except.ok _ =>
  let gano := determinarSiGano cfg gameResult.resultado
  let r := crearOBuscarCliente now db
    { nombre := gameResult.clienteData.nombre
      apellido := gameResult.clienteData.apellido
      telefono := NormalizarTelefono gameResult.clienteData.telefono }
  let cliente := r.1
  let esNuevo := r.2.1
  let db1 := r.2.2
  if cliente.totalJuegos ≥ cfg.gamesRequireApproval then
    ({ success := false
       message := "Este cliente necesita aprobación de un empleado para seguir jugando"
       necesitaAprobacion := true
       clienteID := cliente.id }, db1)
  else
    let rv := crearVoucherYActualizarCliente cfg now ts rnd db1 cliente gano
    ({ success := true
       message := generarMensajeExito gano rv.1.descuento
       codigo := rv.1.codigo
       descuento := rv.1.descuento
       fechaVencimiento := rv.1.fechaVencimiento
       clienteID := cliente.id
       esClienteNuevo := esNuevo
       necesitaAprobacion := false }, rv.2)

/-! ### Voucher redemption (admin_service.go) -/

/-- `AdminService.CanjearVoucher`: reject an unknown, used or expired
voucher without writing; otherwise mark it used and persist. -/
def canjearVoucher (now : ℤ) (empleadoID : Nat) (db : DB) (codigo : String) :
    CanjearVoucherResponse × DB :=
  match buscarVoucherPorCodigo db codigo with
  | none =>
    ({ success := false, message := "Código de voucher no válido" }, db)
  | some voucher =>
    if voucher.usado then
      ({ success := false
         message := "Este voucher ya fue utilizado"
         descuento := voucher.descuento }, db)
    else if voucher.fechaVencimiento < now then
      ({ success := false
         message := "Este voucher está vencido"
         descuento := voucher.descuento }, db)
    else
      let voucher' := { voucher with
        usado := true
        fechaUso := some now
        usuarioCanje := some empleadoID }
      let clienteNombre :=
        match db.clientes.find? (fun c => c.id == voucher.clienteID) with
        | some c => c.nombre ++ " " ++ c.apellido
        | none => "Cliente"
      ({ success := true
         message := "Voucher canjeado correctamente"
         descuento := voucher.descuento
         cliente := clienteNombre },
       actualizarVoucherDB db voucher')

/-! ### Verification-support definitions -/

/-- The characters surviving the formatting strip of the phone helpers. -/
def keepChar (x : Char) : Bool :=
  !(x == ' ') && !(x == '-') && !(x == '(') && !(x == ')')

/-- Row-wise monotonicity of the total-plays counter between two snapshots
of the customers table (rows are only appended, never removed or
reordered). -/
def countersMono (l l' : List Cliente) : Prop :=
  l.length ≤ l'.length ∧
    ∀ (i : Nat) (h : i < l.length) (h2 : i < l'.length),
      (l.get ⟨i, h⟩).totalJuegos ≤ (l'.get ⟨i, h2⟩).totalJuegos

/-- The stored total-plays counter of the customer keyed by `telefono`
(0 when absent, matching a fresh row's zeroed counter). -/
def totalJuegosDe (db : DB) (telefono : String) : ℤ :=
  match buscarClientePorTelefono db telefono with
  | some c => c.totalJuegos
  | none => 0

/-- Read a character list back as a decimal numeral. -/
def decValue (l : List Char) : ℕ :=
  Nat.ofDigits 10 ((l.map (fun c => c.toNat - 48)).reverse)

/-- The find-or-create step of `procesarResultadoJuego` (step 4), as a
function of the raw submission. -/
def pasoCliente (now : ℤ) (db : DB) (gr : GameResult) : Cliente × Bool × DB :=
  crearOBuscarCliente now db
    { nombre := gr.clienteData.nombre
      apellido := gr.clienteData.apellido
      telefono := NormalizarTelefono gr.clienteData.telefono }

/-- The voucher-creation step of `procesarResultadoJuego` on the success
path (step 6). -/
def pasoVoucher (cfg : GameConfig) (now : ℤ) (ts rnd : Nat) (db : DB)
    (gr : GameResult) : Voucher × DB :=
  crearVoucherYActualizarCliente cfg now ts rnd (pasoCliente now db gr).2.2
    (pasoCliente now db gr).1 (determinarSiGano cfg gr.resultado)

/-! ## Supporting lemmas -/

theorem cleanChars_cons (a : Char) (t : List Char) :
    cleanChars (a :: t) = if keepChar a then a :: cleanChars t else cleanChars t := by
  simp only [cleanChars, removeAllChar, keepChar, List.filter_cons]
  by_cases h1 : a = ' ' <;> by_cases h2 : a = '-' <;>
    by_cases h3 : a = '(' <;> by_cases h4 : a = ')' <;>
    simp [h1, h2, h3, h4]

theorem cleanChars_eq_filter (l : List Char) : cleanChars l = l.filter keepChar := by
  induction l with
  | nil => rfl
  | cons a t ih => rw [cleanChars_cons, List.filter_cons, ih]

theorem keep_of_mem_cleanChars {x : Char} {l : List Char} (h : x ∈ cleanChars l) :
    keepChar x = true := by
  rw [cleanChars_eq_filter] at h
  exact List.of_mem_filter h

theorem cleanChars_of_all_keep {l : List Char} (h : ∀ x ∈ l, keepChar x = true) :
    cleanChars l = l := by
  rw [cleanChars_eq_filter]
  exact List.filter_eq_self.mpr h

theorem cleanChars_idem (l : List Char) : cleanChars (cleanChars l) = cleanChars l :=
  cleanChars_of_all_keep (fun _ hx => keep_of_mem_cleanChars hx)

theorem normalizarL_idem (l : List Char) : normalizarL (normalizarL l) = normalizarL l := by
  unfold normalizarL
  by_cases hcond : (!startsWithPlus (cleanChars l) && decide (10 ≤ (cleanChars l).length)) = true
  · rw [if_pos hcond]
    have hclean : cleanChars ('+' :: '5' :: '4' :: cleanChars l) =
        '+' :: '5' :: '4' :: cleanChars l := by
      rw [cleanChars_cons, cleanChars_cons, cleanChars_cons, cleanChars_idem]
      rfl
    rw [hclean]
    rfl
  · rw [if_neg hcond, cleanChars_idem]
    rw [if_neg hcond]

theorem natToDecChars_length_le {n w : ℕ} (hw : 1 ≤ w) (h : n < 10 ^ w) :
    (natToDecChars n).length ≤ w := by
  unfold natToDecChars
  split
  · simpa using hw
  · next hn =>
    rw [List.length_map, List.length_reverse]
    rw [Nat.digits_len 10 n (by norm_num) hn]
    have := Nat.log_lt_of_lt_pow hn h
    omega

theorem sprintfNat_length {n w : ℕ} (hw : 1 ≤ w) (h : n < 10 ^ w) :
    (sprintfNat w n).length = w := by
  have hle := natToDecChars_length_le hw h
  unfold sprintfNat padLeftZeros
  rw [List.length_append, List.length_replicate]
  omega

theorem digitChar_back {d : ℕ} (h : d < 10) : (Char.ofNat (48 + d)).toNat - 48 = d := by
  interval_cases d <;> decide

theorem digitChar_isDigit {d : ℕ} (h : d < 10) : (Char.ofNat (48 + d)).isDigit = true := by
  interval_cases d <;> decide

theorem natToDecChars_isDigit {n : ℕ} {c : Char} (hc : c ∈ natToDecChars n) :
    c.isDigit = true := by
  unfold natToDecChars at hc
  split at hc
  · rw [List.mem_singleton] at hc
    subst hc
    decide
  · simp only [List.mem_map, List.mem_reverse] at hc
    obtain ⟨d, hd, rfl⟩ := hc
    exact digitChar_isDigit (Nat.digits_lt_base (by norm_num) hd)

theorem sprintfNat_isDigit {w n : ℕ} {c : Char} (hc : c ∈ sprintfNat w n) :
    c.isDigit = true := by
  unfold sprintfNat padLeftZeros at hc
  rcases List.mem_append.mp hc with hrep | hdec
  · rw [List.eq_of_mem_replicate hrep]
    decide
  · exact natToDecChars_isDigit hdec

theorem ofDigits_replicate_zero (k : ℕ) : Nat.ofDigits 10 (List.replicate k 0) = 0 := by
  induction k with
  | zero => rfl
  | succ m ih => simp [List.replicate_succ, Nat.ofDigits, ih]

theorem decValue_sprintfNat (w n : ℕ) : decValue (sprintfNat w n) = n := by
  unfold decValue sprintfNat padLeftZeros
  rw [List.map_append, List.map_replicate]
  have hzero : '0'.toNat - 48 = 0 := by decide
  rw [hzero, List.reverse_append, List.reverse_replicate, Nat.ofDigits_append,
    ofDigits_replicate_zero]
  by_cases hn : n = 0
  · subst hn
    simp [natToDecChars, Nat.ofDigits]
  · have hmap : (natToDecChars n).map (fun c => c.toNat - 48) =
        (Nat.digits 10 n).reverse := by
      unfold natToDecChars
      rw [if_neg hn, List.map_map]
      conv_rhs => rw [← List.map_id ((Nat.digits 10 n).reverse)]
      apply List.map_congr_left
      intro d hd
      rw [List.mem_reverse] at hd
      exact digitChar_back (Nat.digits_lt_base (by norm_num) hd)
    rw [hmap, List.reverse_reverse, Nat.ofDigits_digits]
    simp

theorem find?_map_update {α : Type} (p : α → Bool) (key : α → Nat) (l : List α)
    (v v' : α) (hfind : l.find? p = some v) (hkey : key v' = key v)
    (hp : p v' = true) :
    (l.map (fun x => if key x = key v' then v' else x)).find? p = some v' := by
  induction l with
  | nil => simp at hfind
  | cons a t ih =>
    rw [List.map_cons]
    by_cases hpa : p a = true
    · rw [List.find?_cons_of_pos _ hpa] at hfind
      have hav : a = v := by injection hfind
      subst hav
      rw [if_pos hkey.symm]
      exact List.find?_cons_of_pos _ hp
    · rw [List.find?_cons_of_neg _ hpa] at hfind
      by_cases hk : key a = key v'
      · rw [if_pos hk]
        exact List.find?_cons_of_pos _ hp
      · rw [if_neg hk]
        rw [List.find?_cons_of_neg _ hpa]
        exact ih hfind

theorem procesar_phone_error_eq (cfg : GameConfig) (pv : PhoneValidation) (now : ℤ)
    (ts rnd : Nat) (db : DB) (gr : GameResult) (e : String)
    (htel : ValidarTelefonoArgentino pv (NormalizarTelefono gr.clienteData.telefono) =
      Except.error e) :
    procesarResultadoJuego cfg pv now ts rnd db gr =
      ({ success := false, message := "Número de teléfono no válido: " ++ e }, db) := by
  unfold procesarResultadoJuego
  rw [htel]

theorem procesar_datos_error_eq (cfg : GameConfig) (pv : PhoneValidation) (now : ℤ)
    (ts rnd : Nat) (db : DB) (gr : GameResult) (e : String)
    (htel : ValidarTelefonoArgentino pv (NormalizarTelefono gr.clienteData.telefono) =
      Except.ok ())
    (hdatos : validarDatosJuego cfg gr.resultado = Except.error e) :
    procesarResultadoJuego cfg pv now ts rnd db gr =
      ({ success := false, message := "Datos del juego inválidos: " ++ e }, db) := by
  unfold procesarResultadoJuego
  rw [htel, hdatos]

theorem procesar_decline_eq (cfg : GameConfig) (pv : PhoneValidation) (now : ℤ)
    (ts rnd : Nat) (db : DB) (gr : GameResult)
    (htel : ValidarTelefonoArgentino pv (NormalizarTelefono gr.clienteData.telefono) =
      Except.ok ())
    (hdatos : validarDatosJuego cfg gr.resultado = Except.ok ())
    (hgate : cfg.gamesRequireApproval ≤ (pasoCliente now db gr).1.totalJuegos) :
    procesarResultadoJuego cfg pv now ts rnd db gr =
      ({ success := false
         message := "Este cliente necesita aprobación de un empleado para seguir jugando"
         necesitaAprobacion := true
         clienteID := (pasoCliente now db gr).1.id }, (pasoCliente now db gr).2.2) := by
  have hg := hgate
  unfold pasoCliente at hg
  unfold procesarResultadoJuego pasoCliente
  rw [htel, hdatos]
  rw [if_pos hg]

theorem procesar_success_eq (cfg : GameConfig) (pv : PhoneValidation) (now : ℤ)
    (ts rnd : Nat) (db : DB) (gr : GameResult)
    (htel : ValidarTelefonoArgentino pv (NormalizarTelefono gr.clienteData.telefono) =
      Except.ok ())
    (hdatos : validarDatosJuego cfg gr.resultado = Except.ok ())
    (hgate : ¬ cfg.gamesRequireApproval ≤ (pasoCliente now db gr).1.totalJuegos) :
    procesarResultadoJuego cfg pv now ts rnd db gr =
      ({ success := true
         message := generarMensajeExito (determinarSiGano cfg gr.resultado)
           (pasoVoucher cfg now ts rnd db gr).1.descuento
         codigo := (pasoVoucher cfg now ts rnd db gr).1.codigo
         descuento := (pasoVoucher cfg now ts rnd db gr).1.descuento
         fechaVencimiento := (pasoVoucher cfg now ts rnd db gr).1.fechaVencimiento
         clienteID := (pasoCliente now db gr).1.id
         esClienteNuevo := (pasoCliente now db gr).2.1
         necesitaAprobacion := false }, (pasoVoucher cfg now ts rnd db gr).2) := by
  have hg := hgate
  unfold pasoCliente at hg
  unfold procesarResultadoJuego pasoVoucher pasoCliente
  rw [htel, hdatos]
  rw [if_neg hg]

theorem crearOBuscar_none (now : ℤ) (db : DB) (cd : ClienteData)
    (hf : buscarClientePorTelefono db cd.telefono = none) :
    crearOBuscarCliente now db cd =
      ({ id := db.nextClienteID, nombre := cd.nombre, apellido := cd.apellido
         telefono := cd.telefono, fechaRegistro := now, fechaUltimoJuego := none
         totalJuegos := 0, juegosGanados := 0, juegosPerdidos := 0, estado := "activo" },
       true,
       { db with
          clientes := db.clientes ++
            [{ id := db.nextClienteID, nombre := cd.nombre, apellido := cd.apellido
               telefono := cd.telefono, fechaRegistro := now, fechaUltimoJuego := none
               totalJuegos := 0, juegosGanados := 0, juegosPerdidos := 0,
               estado := "activo" }]
          nextClienteID := db.nextClienteID + 1 }) := by
  unfold crearOBuscarCliente crearClienteDB
  rw [hf]

theorem crearOBuscar_some_cambio (now : ℤ) (db : DB) (cd : ClienteData) (c : Cliente)
    (hf : buscarClientePorTelefono db cd.telefono = some c)
    (hne : c.nombre ≠ cd.nombre ∨ c.apellido ≠ cd.apellido) :
    crearOBuscarCliente now db cd =
      ({ c with nombre := cd.nombre, apellido := cd.apellido }, false,
       actualizarClienteDB db { c with nombre := cd.nombre, apellido := cd.apellido }) := by
  unfold crearOBuscarCliente
  simp only [hf]
  rw [if_pos hne]

theorem crearOBuscar_some_igual (now : ℤ) (db : DB) (cd : ClienteData) (c : Cliente)
    (hf : buscarClientePorTelefono db cd.telefono = some c)
    (hsame : ¬(c.nombre ≠ cd.nombre ∨ c.apellido ≠ cd.apellido)) :
    crearOBuscarCliente now db cd = (c, false, db) := by
  unfold crearOBuscarCliente
  simp only [hf]
  rw [if_neg hsame]

theorem crearVoucher_vouchers (cfg : GameConfig) (now : ℤ) (ts rnd : Nat) (db : DB)
    (cliente : Cliente) (gano : Bool) :
    (crearVoucherYActualizarCliente cfg now ts rnd db cliente gano).2.vouchers =
      db.vouchers ++ [(crearVoucherYActualizarCliente cfg now ts rnd db cliente gano).1] :=
  rfl

theorem crearVoucher_campos (cfg : GameConfig) (now : ℤ) (ts rnd : Nat) (db : DB)
    (cliente : Cliente) (gano : Bool) :
    (crearVoucherYActualizarCliente cfg now ts rnd db cliente gano).1.descuento =
      (if gano = true then cfg.winDiscount else cfg.loseDiscount) ∧
    (crearVoucherYActualizarCliente cfg now ts rnd db cliente gano).1.fechaEmision = now ∧
    (crearVoucherYActualizarCliente cfg now ts rnd db cliente gano).1.fechaVencimiento =
      now + cfg.voucherValidityDays * secondsPerDay ∧
    (crearVoucherYActualizarCliente cfg now ts rnd db cliente gano).1.usado = false :=
  ⟨rfl, rfl, rfl, rfl⟩

theorem crearVoucher_clientes (cfg : GameConfig) (now : ℤ) (ts rnd : Nat) (db : DB)
    (cliente : Cliente) (gano : Bool) :
    (crearVoucherYActualizarCliente cfg now ts rnd db cliente gano).2.clientes =
      db.clientes.map (fun x =>
        if x.id = cliente.id then
          { cliente with
            totalJuegos := cliente.totalJuegos + 1
            fechaUltimoJuego := some now
            juegosGanados :=
              if gano then cliente.juegosGanados + 1 else cliente.juegosGanados
            juegosPerdidos :=
              if gano then cliente.juegosPerdidos else cliente.juegosPerdidos + 1 }
        else x) :=
  rfl

theorem crearOBuscar_vouchers (now : ℤ) (db : DB) (cd : ClienteData) :
    (crearOBuscarCliente now db cd).2.2.vouchers = db.vouchers := by
  cases hf : buscarClientePorTelefono db cd.telefono with
  | none => rw [crearOBuscar_none now db cd hf]
  | some c =>
    by_cases hne : c.nombre ≠ cd.nombre ∨ c.apellido ≠ cd.apellido
    · rw [crearOBuscar_some_cambio now db cd c hf hne]
      rfl
    · rw [crearOBuscar_some_igual now db cd c hf hne]

/-! counters-monotonicity toolkit -/

theorem countersMono_refl (l : List Cliente) : countersMono l l :=
  ⟨le_refl _, fun _ _ _ => le_refl _⟩

theorem countersMono_trans {l1 l2 l3 : List Cliente} (h12 : countersMono l1 l2)
    (h23 : countersMono l2 l3) : countersMono l1 l3 := by
  obtain ⟨ha, hb⟩ := h12
  obtain ⟨hc, hd⟩ := h23
  refine ⟨le_trans ha hc, fun i h h2 => ?_⟩
  have hm : i < l2.length := lt_of_lt_of_le h ha
  exact le_trans (hb i h hm) (hd i hm h2)

theorem countersMono_of_map (l : List Cliente) (g : Cliente → Cliente)
    (hg : ∀ x ∈ l, x.totalJuegos ≤ (g x).totalJuegos) : countersMono l (l.map g) := by
  refine ⟨by simp, fun i h h2 => ?_⟩
  have hge : (l.map g).get ⟨i, h2⟩ = g (l.get ⟨i, h⟩) := by
    simp [List.getElem_map]
  rw [hge]
  exact hg _ (List.get_mem l i h)

theorem countersMono_append (l m : List Cliente) : countersMono l (l ++ m) := by
  refine ⟨by simp, fun i h h2 => ?_⟩
  have hge : (l ++ m).get ⟨i, h2⟩ = l.get ⟨i, h⟩ := by
    simp [List.getElem_append_left, h]
  rw [hge]

theorem countersMono_update (l : List Cliente) (c c' : Cliente) (hmem : c ∈ l)
    (hid : c'.id = c.id) (hcnt : c.totalJuegos ≤ c'.totalJuegos)
    (hnd : (l.map (fun x => x.id)).Nodup) :
    countersMono l (l.map (fun x => if x.id = c'.id then c' else x)) := by
  apply countersMono_of_map
  intro x hx
  by_cases hxe : x.id = c'.id
  · have hxc : x = c := List.inj_on_of_nodup_map hnd hx hmem (by rw [hxe, hid])
    rw [if_pos hxe, hxc]
    exact hcnt
  · rw [if_neg hxe]

theorem map_update_proj {β : Type} (l : List Cliente) (c c' : Cliente)
    (f : Cliente → β) (hmem : c ∈ l) (hid : c'.id = c.id) (hproj : f c' = f c)
    (hnd : (l.map (fun x => x.id)).Nodup) :
    (l.map (fun x => if x.id = c'.id then c' else x)).map f = l.map f := by
  rw [List.map_map]
  apply List.map_congr_left
  intro x hx
  show f (if x.id = c'.id then c' else x) = f x
  by_cases hxe : x.id = c'.id
  · have hxc : x = c := List.inj_on_of_nodup_map hnd hx hmem (by rw [hxe, hid])
    rw [if_pos hxe, hproj, hxc]
  · rw [if_neg hxe]

theorem find?_append_update {α : Type} (p : α → Bool) (key : α → Nat) (l : List α)
    (w c' : α) (hnone : l.find? p = none) (hne : ∀ x ∈ l, key x ≠ key c')
    (hw : key w = key c') (hp : p c' = true) :
    ((l ++ [w]).map (fun x => if key x = key c' then c' else x)).find? p = some c' := by
  rw [List.map_append]
  have hmap : l.map (fun x => if key x = key c' then c' else x) = l := by
    conv_rhs => rw [← List.map_id l]
    apply List.map_congr_left
    intro x hx
    rw [if_neg (hne x hx)]
    rfl
  rw [hmap, List.find?_append, hnone]
  show ([if key w = key c' then c' else w].find? p) = some c'
  rw [if_pos hw]
  exact List.find?_cons_of_pos _ hp

theorem canjear_clientes (now2 : ℤ) (emp : Nat) (db : DB) (cod : String) :
    (canjearVoucher now2 emp db cod).2.clientes = db.clientes := by
  unfold canjearVoucher
  cases hf : buscarVoucherPorCodigo db cod with
  | none => rfl
  | some v =>
    simp only [hf]
    split
    · rfl
    · split
      · rfl
      · rfl

theorem ids_update (l : List Cliente) (c' : Cliente) :
    ((l.map (fun x => if x.id = c'.id then c' else x)).map (fun x => x.id)) =
      l.map (fun x => x.id) := by
  rw [List.map_map]
  apply List.map_congr_left
  intro x _
  show (if x.id = c'.id then c' else x).id = x.id
  by_cases h : x.id = c'.id
  · rw [if_pos h, h]
  · rw [if_neg h]

theorem crearVoucher_mono (cfg : GameConfig) (now : ℤ) (ts rnd : Nat) (dbX : DB)
    (cliente : Cliente) (gano : Bool) (hmem : cliente ∈ dbX.clientes)
    (hndX : (dbX.clientes.map (fun x => x.id)).Nodup) :
    countersMono dbX.clientes
      (crearVoucherYActualizarCliente cfg now ts rnd dbX cliente gano).2.clientes := by
  rw [crearVoucher_clientes]
  have hc2 : Cliente.id
      { cliente with
        totalJuegos := cliente.totalJuegos + 1
        fechaUltimoJuego := some now
        juegosGanados := if gano then cliente.juegosGanados + 1 else cliente.juegosGanados
        juegosPerdidos := if gano then cliente.juegosPerdidos
          else cliente.juegosPerdidos + 1 } = cliente.id := rfl
  rw [← hc2]
  exact countersMono_update dbX.clientes cliente _ hmem rfl
    (le_of_lt (lt_add_one _)) hndX

theorem crearVoucher_inc (cfg : GameConfig) (now : ℤ) (ts rnd : Nat) (dbX : DB)
    (cliente : Cliente) (gano : Bool) (tel : String)
    (hfindX : dbX.clientes.find? (fun x => x.telefono == tel) = some cliente) :
    totalJuegosDe (crearVoucherYActualizarCliente cfg now ts rnd dbX cliente gano).2 tel =
      cliente.totalJuegos + 1 := by
  unfold totalJuegosDe buscarClientePorTelefono
  rw [crearVoucher_clientes]
  have hp := List.find?_some hfindX
  have hc2 : Cliente.id
      { cliente with
        totalJuegos := cliente.totalJuegos + 1
        fechaUltimoJuego := some now
        juegosGanados := if gano then cliente.juegosGanados + 1 else cliente.juegosGanados
        juegosPerdidos := if gano then cliente.juegosPerdidos
          else cliente.juegosPerdidos + 1 } = cliente.id := rfl
  have hres := find?_map_update (fun x => x.telefono == tel) (fun x => x.id)
    dbX.clientes cliente
    { cliente with
      totalJuegos := cliente.totalJuegos + 1
      fechaUltimoJuego := some now
      juegosGanados := if gano then cliente.juegosGanados + 1 else cliente.juegosGanados
      juegosPerdidos := if gano then cliente.juegosPerdidos
        else cliente.juegosPerdidos + 1 }
    hfindX hc2 hp
  rw [hc2] at hres
  rw [hres]

theorem pasoCliente_mono (now : ℤ) (db : DB) (gr : GameResult)
    (hnd : (db.clientes.map (fun x => x.id)).Nodup) :
    countersMono db.clientes (pasoCliente now db gr).2.2.clientes := by
  cases hfc : buscarClientePorTelefono db (NormalizarTelefono gr.clienteData.telefono) with
  | none =>
    unfold pasoCliente
    rw [crearOBuscar_none now db
      ⟨gr.clienteData.nombre, gr.clienteData.apellido,
        NormalizarTelefono gr.clienteData.telefono⟩ hfc]
    exact countersMono_append _ _
  | some cx =>
    have hfc' : db.clientes.find?
        (fun x => x.telefono == NormalizarTelefono gr.clienteData.telefono) =
        some cx := hfc
    by_cases hne : cx.nombre ≠ gr.clienteData.nombre ∨ cx.apellido ≠ gr.clienteData.apellido
    · unfold pasoCliente
      rw [crearOBuscar_some_cambio now db
        ⟨gr.clienteData.nombre, gr.clienteData.apellido,
          NormalizarTelefono gr.clienteData.telefono⟩ cx hfc hne]
      exact countersMono_update db.clientes cx _
        (List.mem_of_find?_eq_some hfc') rfl (le_refl _) hnd
    · unfold pasoCliente
      rw [crearOBuscar_some_igual now db
        ⟨gr.clienteData.nombre, gr.clienteData.apellido,
          NormalizarTelefono gr.clienteData.telefono⟩ cx hfc hne]
      exact countersMono_refl _

theorem pasoVoucher_mono (cfg : GameConfig) (now : ℤ) (ts rnd : Nat) (db : DB)
    (gr : GameResult)
    (hnd : (db.clientes.map (fun x => x.id)).Nodup)
    (hfresh : ∀ x ∈ db.clientes, x.id < db.nextClienteID) :
    countersMono db.clientes (pasoVoucher cfg now ts rnd db gr).2.clientes := by
  cases hfc : buscarClientePorTelefono db (NormalizarTelefono gr.clienteData.telefono) with
  | none =>
    have hnd2 : ((db.clientes ++
        [({ id := db.nextClienteID, nombre := gr.clienteData.nombre,
            apellido := gr.clienteData.apellido,
            telefono := NormalizarTelefono gr.clienteData.telefono, fechaRegistro := now,
            fechaUltimoJuego := none, totalJuegos := 0, juegosGanados := 0,
            juegosPerdidos := 0, estado := "activo" } : Cliente)]).map
          (fun x => x.id)).Nodup := by
      rw [List.map_append]
      refine List.Nodup.append hnd (by simp) ?_
      intro a ha hb
      simp only [List.map_cons, List.map_nil, List.mem_singleton] at hb
      obtain ⟨x, hx, rfl⟩ := List.mem_map.mp ha
      exact absurd hb (by exact Nat.ne_of_lt (hfresh x hx))
    unfold pasoVoucher pasoCliente
    rw [crearOBuscar_none now db
      ⟨gr.clienteData.nombre, gr.clienteData.apellido,
        NormalizarTelefono gr.clienteData.telefono⟩ hfc]
    exact countersMono_trans
      (countersMono_append db.clientes
        [{ id := db.nextClienteID, nombre := gr.clienteData.nombre,
           apellido := gr.clienteData.apellido,
           telefono := NormalizarTelefono gr.clienteData.telefono, fechaRegistro := now,
           fechaUltimoJuego := none, totalJuegos := 0, juegosGanados := 0,
           juegosPerdidos := 0, estado := "activo" }])
      (crearVoucher_mono cfg now ts rnd
        ⟨db.clientes ++
          [{ id := db.nextClienteID, nombre := gr.clienteData.nombre,
             apellido := gr.clienteData.apellido,
             telefono := NormalizarTelefono gr.clienteData.telefono, fechaRegistro := now,
             fechaUltimoJuego := none, totalJuegos := 0, juegosGanados := 0,
             juegosPerdidos := 0, estado := "activo" }],
          db.vouchers, db.nextClienteID + 1, db.nextVoucherID⟩
        { id := db.nextClienteID, nombre := gr.clienteData.nombre,
          apellido := gr.clienteData.apellido,
          telefono := NormalizarTelefono gr.clienteData.telefono, fechaRegistro := now,
          fechaUltimoJuego := none, totalJuegos := 0, juegosGanados := 0,
          juegosPerdidos := 0, estado := "activo" }
        (determinarSiGano cfg gr.resultado)
        (List.mem_append_right _ (List.mem_singleton.mpr rfl)) hnd2)
  | some cx =>
    have hfc' : db.clientes.find?
        (fun x => x.telefono == NormalizarTelefono gr.clienteData.telefono) =
        some cx := hfc
    have hmem : cx ∈ db.clientes := List.mem_of_find?_eq_some hfc'
    by_cases hne : cx.nombre ≠ gr.clienteData.nombre ∨ cx.apellido ≠ gr.clienteData.apellido
    · unfold pasoVoucher pasoCliente
      rw [crearOBuscar_some_cambio now db
        ⟨gr.clienteData.nombre, gr.clienteData.apellido,
          NormalizarTelefono gr.clienteData.telefono⟩ cx hfc hne]
      set c1 : Cliente := { cx with nombre := gr.clienteData.nombre, apellido := gr.clienteData.apellido } with hc1
      have hid1 : cx.id = c1.id := by rw [hc1]
      have hmem1 : c1 ∈ db.clientes.map (fun x => if x.id = c1.id then c1 else x) := by
        refine List.mem_map.mpr ⟨cx, hmem, ?_⟩
        rw [if_pos hid1]
      have hnd1 : ((db.clientes.map (fun x => if x.id = c1.id then c1 else x)).map
          (fun x => x.id)).Nodup := by
        rw [ids_update]
        exact hnd
      exact countersMono_trans
        (countersMono_update db.clientes cx c1 hmem hid1.symm (le_refl _) hnd)
        (crearVoucher_mono cfg now ts rnd (actualizarClienteDB db c1) c1
          (determinarSiGano cfg gr.resultado) hmem1 hnd1)
    · unfold pasoVoucher pasoCliente
      rw [crearOBuscar_some_igual now db
        ⟨gr.clienteData.nombre, gr.clienteData.apellido,
          NormalizarTelefono gr.clienteData.telefono⟩ cx hfc hne]
      exact crearVoucher_mono cfg now ts rnd db cx _ hmem hnd

theorem find?_append_singleton {α : Type} (p : α → Bool) (l : List α) (w : α)
    (hnone : l.find? p = none) (hp : p w = true) :
    (l ++ [w]).find? p = some w := by
  induction l with
  | nil => exact List.find?_cons_of_pos _ hp
  | cons a t ih =>
    have ha : ¬ p a = true := by
      intro hpa
      rw [List.find?_cons_of_pos _ hpa] at hnone
      exact Option.noConfusion hnone
    rw [List.find?_cons_of_neg _ ha] at hnone
    rw [List.cons_append, List.find?_cons_of_neg _ ha]
    exact ih hnone

theorem procesar_mono (cfg : GameConfig) (pv : PhoneValidation) (now : ℤ)
    (ts rnd : Nat) (db : DB) (gr : GameResult)
    (hnd : (db.clientes.map (fun x => x.id)).Nodup)
    (hfresh : ∀ x ∈ db.clientes, x.id < db.nextClienteID) :
    countersMono db.clientes (procesarResultadoJuego cfg pv now ts rnd db gr).2.clientes := by
  cases htel : ValidarTelefonoArgentino pv (NormalizarTelefono gr.clienteData.telefono) with
  | error e =>
    rw [procesar_phone_error_eq cfg pv now ts rnd db gr e htel]
    exact countersMono_refl _
  | ok u =>
    cases u
    cases hdatos : validarDatosJuego cfg gr.resultado with
    | error e =>
      rw [procesar_datos_error_eq cfg pv now ts rnd db gr e htel hdatos]
      exact countersMono_refl _
    | ok u2 =>
      cases u2
      by_cases hgate : cfg.gamesRequireApproval ≤ (pasoCliente now db gr).1.totalJuegos
      · rw [procesar_decline_eq cfg pv now ts rnd db gr htel hdatos hgate]
        exact pasoCliente_mono now db gr hnd
      · rw [procesar_success_eq cfg pv now ts rnd db gr htel hdatos hgate]
        exact pasoVoucher_mono cfg now ts rnd db gr hnd hfresh

theorem procesar_inc (cfg : GameConfig) (pv : PhoneValidation) (now : ℤ)
    (ts rnd : Nat) (db : DB) (gr : GameResult)
    (hsuc : (procesarResultadoJuego cfg pv now ts rnd db gr).1.success = true) :
    totalJuegosDe (procesarResultadoJuego cfg pv now ts rnd db gr).2
        (NormalizarTelefono gr.clienteData.telefono) =
      totalJuegosDe db (NormalizarTelefono gr.clienteData.telefono) + 1 := by
  cases htel : ValidarTelefonoArgentino pv (NormalizarTelefono gr.clienteData.telefono) with
  | error e =>
    rw [procesar_phone_error_eq cfg pv now ts rnd db gr e htel] at hsuc
    simp at hsuc
  | ok u =>
    cases u
    cases hdatos : validarDatosJuego cfg gr.resultado with
    | error e =>
      rw [procesar_datos_error_eq cfg pv now ts rnd db gr e htel hdatos] at hsuc
      simp at hsuc
    | ok u2 =>
      cases u2
      by_cases hgate : cfg.gamesRequireApproval ≤ (pasoCliente now db gr).1.totalJuegos
      · rw [procesar_decline_eq cfg pv now ts rnd db gr htel hdatos hgate] at hsuc
        simp at hsuc
      · rw [procesar_success_eq cfg pv now ts rnd db gr htel hdatos hgate]
        cases hfc : buscarClientePorTelefono db
            (NormalizarTelefono gr.clienteData.telefono) with
        | none =>
          have h0 : totalJuegosDe db (NormalizarTelefono gr.clienteData.telefono) = 0 := by
            unfold totalJuegosDe
            rw [hfc]
          rw [h0]
          have hnone : db.clientes.find?
              (fun x => x.telefono == NormalizarTelefono gr.clienteData.telefono) =
              none := hfc
          unfold pasoVoucher pasoCliente
          rw [crearOBuscar_none now db
            ⟨gr.clienteData.nombre, gr.clienteData.apellido,
              NormalizarTelefono gr.clienteData.telefono⟩ hfc]
          have hfind1 : ((db.clientes ++
              [({ id := db.nextClienteID, nombre := gr.clienteData.nombre,
                  apellido := gr.clienteData.apellido,
                  telefono := NormalizarTelefono gr.clienteData.telefono,
                  fechaRegistro := now, fechaUltimoJuego := none, totalJuegos := 0,
                  juegosGanados := 0, juegosPerdidos := 0,
                  estado := "activo" } : Cliente)]).find?
              (fun x => x.telefono == NormalizarTelefono gr.clienteData.telefono)) =
              some ({ id := db.nextClienteID, nombre := gr.clienteData.nombre,
                      apellido := gr.clienteData.apellido,
                      telefono := NormalizarTelefono gr.clienteData.telefono,
                      fechaRegistro := now, fechaUltimoJuego := none, totalJuegos := 0,
                      juegosGanados := 0, juegosPerdidos := 0,
                      estado := "activo" } : Cliente) := by
            apply find?_append_singleton _ db.clientes _ hnone
            show (NormalizarTelefono gr.clienteData.telefono ==
              NormalizarTelefono gr.clienteData.telefono) = true
            simp
          exact crearVoucher_inc cfg now ts rnd
            ⟨db.clientes ++
              [({ id := db.nextClienteID, nombre := gr.clienteData.nombre,
                  apellido := gr.clienteData.apellido,
                  telefono := NormalizarTelefono gr.clienteData.telefono,
                  fechaRegistro := now, fechaUltimoJuego := none, totalJuegos := 0,
                  juegosGanados := 0, juegosPerdidos := 0,
                  estado := "activo" } : Cliente)],
              db.vouchers, db.nextClienteID + 1, db.nextVoucherID⟩
            { id := db.nextClienteID, nombre := gr.clienteData.nombre,
              apellido := gr.clienteData.apellido,
              telefono := NormalizarTelefono gr.clienteData.telefono,
              fechaRegistro := now, fechaUltimoJuego := none, totalJuegos := 0,
              juegosGanados := 0, juegosPerdidos := 0, estado := "activo" }
            (determinarSiGano cfg gr.resultado)
            (NormalizarTelefono gr.clienteData.telefono) hfind1
        | some cx =>
          have hfc' : db.clientes.find?
              (fun x => x.telefono == NormalizarTelefono gr.clienteData.telefono) =
              some cx := hfc
          have h0 : totalJuegosDe db (NormalizarTelefono gr.clienteData.telefono) =
              cx.totalJuegos := by
            unfold totalJuegosDe
            rw [hfc]
          rw [h0]
          by_cases hne : cx.nombre ≠ gr.clienteData.nombre ∨
              cx.apellido ≠ gr.clienteData.apellido
          · unfold pasoVoucher pasoCliente
            rw [crearOBuscar_some_cambio now db
              ⟨gr.clienteData.nombre, gr.clienteData.apellido,
                NormalizarTelefono gr.clienteData.telefono⟩ cx hfc hne]
            set c1 : Cliente := { cx with nombre := gr.clienteData.nombre, apellido := gr.clienteData.apellido } with hc1
            have hid1 : c1.id = cx.id := by rw [hc1]
            have hp1 := List.find?_some hfc'
            have hfind1 : (db.clientes.map (fun x => if x.id = c1.id then c1 else x)).find?
                (fun x => x.telefono == NormalizarTelefono gr.clienteData.telefono) =
                some c1 :=
              find?_map_update _ (fun x => x.id) db.clientes cx c1 hfc' hid1 hp1
            exact crearVoucher_inc cfg now ts rnd (actualizarClienteDB db c1) c1
              (determinarSiGano cfg gr.resultado)
              (NormalizarTelefono gr.clienteData.telefono) hfind1
          · unfold pasoVoucher pasoCliente
            rw [crearOBuscar_some_igual now db
              ⟨gr.clienteData.nombre, gr.clienteData.apellido,
                NormalizarTelefono gr.clienteData.telefono⟩ cx hfc hne]
            exact crearVoucher_inc cfg now ts rnd db cx
              (determinarSiGano cfg gr.resultado)
              (NormalizarTelefono gr.clienteData.telefono) hfc'

/-! ## Claim theorems -/

/-- C1: for every pair of target and achieved times that passes game-data
validation, `determinarSiGano` reports a win if and only if the absolute
difference between achieved and target is at most the configured tolerance
(default 1/10); otherwise it reports a loss. -/
theorem determinarSiGano_spec (cfg : GameConfig) (r : Resultado)
    (hval : validarDatosJuego cfg r = Except.ok ()) :
    determinarSiGano cfg r = true ↔
      |r.tiempoObtenido - r.tiempoObjetivo| ≤ cfg.tolerance := by
  simp [determinarSiGano]

theorem determinarSiGano_spec_witness :
    validarDatosJuego defaultGameConfig ⟨false, 15/2, 37/5, 0⟩ = Except.ok () ∧
    (determinarSiGano defaultGameConfig ⟨false, 15/2, 37/5, 0⟩ = true ↔
      |(37/5 : ℚ) - 15/2| ≤ defaultGameConfig.tolerance) :=
  ⟨by with_unfolding_all rfl,
   determinarSiGano_spec defaultGameConfig ⟨false, 15/2, 37/5, 0⟩
     (by with_unfolding_all rfl)⟩

/-- C6 counterexample: an achieved time of exactly 30 seconds is *not* below
the 30-second sanity ceiling, yet game-data validation accepts it (the code
tests `> 30`, not `≥ 30`). -/
theorem validarDatosJuego_techo_cex :
    ¬ ((30 : ℚ) < 30) ∧
    validarDatosJuego defaultGameConfig ⟨false, 10, 30, 0⟩ = Except.ok () :=
  ⟨by norm_num, by with_unfolding_all rfl⟩

/-- C6 (amended): game-data validation accepts a submission iff the target
time lies within the configured [min,max] range and the achieved time is
non-negative and at most (not strictly below) the 30-second ceiling; when it
rejects, processing fails with a user-facing message and the store is
unchanged. -/
theorem validarDatosJuego_spec (cfg : GameConfig) (pv : PhoneValidation)
    (now : ℤ) (ts rnd : Nat) (db : DB) (gr : GameResult) (e : String) :
    (validarDatosJuego cfg gr.resultado = Except.ok () ↔
      (cfg.minTargetTime ≤ gr.resultado.tiempoObjetivo ∧
        gr.resultado.tiempoObjetivo ≤ cfg.maxTargetTime ∧
        0 ≤ gr.resultado.tiempoObtenido ∧ gr.resultado.tiempoObtenido ≤ 30)) ∧
    (validarDatosJuego cfg gr.resultado = Except.error e →
      (procesarResultadoJuego cfg pv now ts rnd db gr).1.success = false ∧
      (procesarResultadoJuego cfg pv now ts rnd db gr).2 = db) := by
  constructor
  · unfold validarDatosJuego
    split
    · next h =>
      constructor
      · intro hco; exact Except.noConfusion hco
      · rintro ⟨h1, h2, _, _⟩
        rcases h with h | h
        · exact absurd h (not_lt.mpr h1)
        · exact absurd h (not_lt.mpr h2)
    · split
      · next h =>
        constructor
        · intro hco; exact Except.noConfusion hco
        · rintro ⟨_, _, h3, h4⟩
          rcases h with h | h
          · exact absurd h (not_lt.mpr h3)
          · exact absurd h (not_lt.mpr h4)
      · next h0 h =>
        push_neg at h0 h
        exact ⟨fun _ => ⟨h0.1, h0.2, h.1, h.2⟩, fun _ => rfl⟩
  · intro herr
    unfold procesarResultadoJuego
    cases hval : ValidarTelefonoArgentino pv (NormalizarTelefono gr.clienteData.telefono) with
    | error e2 => exact ⟨rfl, rfl⟩
    | ok u => rw [herr]; exact ⟨rfl, rfl⟩

theorem validarDatosJuego_spec_witness :
    (validarDatosJuego defaultGameConfig
        (GameResult.resultado ⟨⟨"Ana", "Gomez", "+541112345678"⟩, ⟨false, 10, 31, 0⟩⟩) =
          Except.ok () ↔
      (defaultGameConfig.minTargetTime ≤ (10 : ℚ) ∧ (10 : ℚ) ≤ defaultGameConfig.maxTargetTime ∧
        0 ≤ (31 : ℚ) ∧ (31 : ℚ) ≤ 30)) ∧
     (validarDatosJuego defaultGameConfig
        (GameResult.resultado ⟨⟨"Ana", "Gomez", "+541112345678"⟩, ⟨false, 10, 31, 0⟩⟩) =
          Except.error "tiempo obtenido sospechoso" →
      (procesarResultadoJuego defaultGameConfig getPhoneValidation 0 0 0 ⟨[], [], 1, 1⟩
        ⟨⟨"Ana", "Gomez", "+541112345678"⟩, ⟨false, 10, 31, 0⟩⟩).1.success = false ∧
      (procesarResultadoJuego defaultGameConfig getPhoneValidation 0 0 0 ⟨[], [], 1, 1⟩
        ⟨⟨"Ana", "Gomez", "+541112345678"⟩, ⟨false, 10, 31, 0⟩⟩).2 = ⟨[], [], 1, 1⟩) :=
  validarDatosJuego_spec defaultGameConfig getPhoneValidation 0 0 0 ⟨[], [], 1, 1⟩
    ⟨⟨"Ana", "Gomez", "+541112345678"⟩, ⟨false, 10, 31, 0⟩⟩ "tiempo obtenido sospechoso"

/-- C4: when the (normalised) phone number fails `ValidarTelefonoArgentino`,
processing is rejected with a user-facing message and the store is returned
untouched — no customer row is created or modified. Moreover the validator
only depends on the formatting-stripped number, and with the configured
allowlist it rejects an Argentine (54-prefixed) number whose area code is
not on the list (when the remainder is shorter than 10 characters). -/
theorem procesar_telefono_invalido_spec (cfg : GameConfig) (pv : PhoneValidation)
    (now : ℤ) (ts rnd : Nat) (db : DB) (gr : GameResult) (e : String) (s : String)
    (tel : List Char)
    (h : ValidarTelefonoArgentino pv (NormalizarTelefono gr.clienteData.telefono) =
      Except.error e)
    (hlen1 : getPhoneValidation.minLength ≤ tel.length)
    (hlen2 : tel.length ≤ getPhoneValidation.maxLength)
    (hcc : getPhoneValidation.countryCode.isPrefixOf tel = true)
    (harea : getPhoneValidation.areaCodes.any
      (fun a => a.isPrefixOf (tel.drop getPhoneValidation.countryCode.length)) = false)
    (hshort : (tel.drop getPhoneValidation.countryCode.length).length < 10)
    (hclean : cleanChars tel = tel) :
    procesarResultadoJuego cfg pv now ts rnd db gr =
      ({ success := false, message := "Número de teléfono no válido: " ++ e }, db) ∧
    ValidarTelefonoArgentino pv ⟨cleanChars s.data⟩ = ValidarTelefonoArgentino pv s ∧
    validarTelefonoL getPhoneValidation tel =
      Except.error "código de área no válido para Argentina" := by
  refine ⟨?_, ?_, ?_⟩
  · unfold procesarResultadoJuego
    rw [h]
  · show validarTelefonoL pv (cleanChars s.data) = validarTelefonoL pv s.data
    unfold validarTelefonoL
    rw [cleanChars_idem]
  · have h1 : ¬(tel.length < getPhoneValidation.minLength ∨
        tel.length > getPhoneValidation.maxLength) := by
      push_neg
      exact ⟨hlen1, hlen2⟩
    unfold validarTelefonoL
    rw [hclean]
    rw [if_neg h1]
    rw [hcc]
    simp [harea]
    simpa using hshort

theorem procesar_telefono_invalido_spec_witness :
    (procesarResultadoJuego defaultGameConfig getPhoneValidation 0 0 0 ⟨[], [], 1, 1⟩
        ⟨⟨"Ana", "Gomez", "123"⟩, ⟨false, 10, 10, 0⟩⟩ =
      ({ success := false,
         message := "Número de teléfono no válido: " ++
           "número de teléfono debe tener entre MinLength y MaxLength dígitos" },
       ⟨[], [], 1, 1⟩)) ∧
    ValidarTelefonoArgentino getPhoneValidation ⟨cleanChars ("(11) 4321-5678" : String).data⟩ =
      ValidarTelefonoArgentino getPhoneValidation "(11) 4321-5678" ∧
    validarTelefonoL getPhoneValidation (String.toList "5499123456") =
      Except.error "código de área no válido para Argentina" :=
  procesar_telefono_invalido_spec defaultGameConfig getPhoneValidation 0 0 0 ⟨[], [], 1, 1⟩
    ⟨⟨"Ana", "Gomez", "123"⟩, ⟨false, 10, 10, 0⟩⟩
    "número de teléfono debe tener entre MinLength y MaxLength dígitos"
    "(11) 4321-5678" (String.toList "5499123456")
    (by with_unfolding_all rfl) (by decide) (by decide) (by decide)
    (by with_unfolding_all rfl) (by decide) (by decide)

/-- C8: the server-side win/lose outcome and the whole processing result are
independent of the client-submitted `gano` boolean: two submissions that
agree on everything except `gano` produce identical responses (including the
voucher discount) and identical stores. -/
theorem procesar_ignora_gano_cliente (cfg : GameConfig) (pv : PhoneValidation)
    (now : ℤ) (ts rnd : Nat) (db : DB) (cd : ClienteData) (g g' : Bool)
    (obj obt tol : ℚ) :
    procesarResultadoJuego cfg pv now ts rnd db ⟨cd, ⟨g, obj, obt, tol⟩⟩ =
    procesarResultadoJuego cfg pv now ts rnd db ⟨cd, ⟨g', obj, obt, tol⟩⟩ := rfl

/-- C10: `NormalizarTelefono` is idempotent: normalising an already
normalised phone number changes nothing. -/
theorem NormalizarTelefono_idempotente (s : String) :
    NormalizarTelefono (NormalizarTelefono s) = NormalizarTelefono s := by
  show String.mk (normalizarL (String.mk (normalizarL s.data)).data) =
    String.mk (normalizarL s.data)
  exact congrArg String.mk (normalizarL_idem s.data)

/-- C9: every voucher code is exactly 10 characters: the prefix "CH", then
the Unix timestamp mod 100000 as a 5-digit zero-padded decimal numeral, then
the random draw (0–999) as a 3-digit zero-padded decimal numeral; all eight
trailing characters are decimal digits and the two numerals read back as the
respective numbers. -/
theorem generarCodigoVoucher_formato (ts rnd : Nat) (h : rnd < 1000) :
    (generarCodigoVoucher ts rnd).length = 10 ∧
    (generarCodigoVoucher ts rnd).data =
      String.toList "CH" ++ sprintfNat 5 (ts % 100000) ++ sprintfNat 3 rnd ∧
    (sprintfNat 5 (ts % 100000)).length = 5 ∧
    (sprintfNat 3 rnd).length = 3 ∧
    (∀ c ∈ sprintfNat 5 (ts % 100000), c.isDigit = true) ∧
    (∀ c ∈ sprintfNat 3 rnd, c.isDigit = true) ∧
    decValue (sprintfNat 5 (ts % 100000)) = ts % 100000 ∧
    decValue (sprintfNat 3 rnd) = rnd := by
  have hmod : ts % 100000 < 10 ^ 5 := by
    have h1 : (10 : ℕ) ^ 5 = 100000 := by norm_num
    rw [h1]
    exact Nat.mod_lt ts (by norm_num)
  have hrnd : rnd < 10 ^ 3 := by
    have h1 : (10 : ℕ) ^ 3 = 1000 := by norm_num
    rw [h1]
    exact h
  have h5 : (sprintfNat 5 (ts % 100000)).length = 5 := sprintfNat_length (by norm_num) hmod
  have h3 : (sprintfNat 3 rnd).length = 3 := sprintfNat_length (by norm_num) hrnd
  refine ⟨?_, rfl, h5, h3, fun _ hc => sprintfNat_isDigit hc,
    fun _ hc => sprintfNat_isDigit hc, decValue_sprintfNat _ _, decValue_sprintfNat _ _⟩
  show (generateVoucherCode.data ++ sprintfNat 5 (ts % 100000) ++ sprintfNat 3 rnd).length = 10
  rw [List.length_append, List.length_append, h5, h3]
  rfl

theorem generarCodigoVoucher_formato_witness :
    (7 : ℕ) < 1000 ∧
    (generarCodigoVoucher 1700000123 7).length = 10 ∧
    (generarCodigoVoucher 1700000123 7).data =
      String.toList "CH" ++ sprintfNat 5 (1700000123 % 100000) ++ sprintfNat 3 7 ∧
    decValue (sprintfNat 5 (1700000123 % 100000)) = 1700000123 % 100000 ∧
    decValue (sprintfNat 3 7) = 7 :=
  have hw := generarCodigoVoucher_formato 1700000123 7 (by norm_num)
  ⟨by norm_num, hw.1, hw.2.1, hw.2.2.2.2.2.2.1, hw.2.2.2.2.2.2.2⟩

/-- C2: `canjearVoucher` rejects — with a reason and without touching the
store — any voucher already marked used, and any unused voucher whose expiry
lies in the past; and once a redemption succeeds, every later redemption
attempt with the same code is rejected and leaves the store unchanged. -/
theorem canjearVoucher_rechazos (now now2 : ℤ) (emp emp2 : Nat) (db : DB)
    (codigo : String) (v : Voucher)
    (hfind : buscarVoucherPorCodigo db codigo = some v) :
    (v.usado = true →
      canjearVoucher now emp db codigo =
        ({ success := false, message := "Este voucher ya fue utilizado",
           descuento := v.descuento }, db)) ∧
    (v.usado = false → v.fechaVencimiento < now →
      canjearVoucher now emp db codigo =
        ({ success := false, message := "Este voucher está vencido",
           descuento := v.descuento }, db)) ∧
    ((canjearVoucher now emp db codigo).1.success = true →
      (canjearVoucher now2 emp2 (canjearVoucher now emp db codigo).2 codigo).1.success =
        false ∧
      (canjearVoucher now2 emp2 (canjearVoucher now emp db codigo).2 codigo).2 =
        (canjearVoucher now emp db codigo).2) := by
  have hU : v.usado = true →
      canjearVoucher now emp db codigo =
        ({ success := false, message := "Este voucher ya fue utilizado",
           descuento := v.descuento }, db) := by
    intro husado
    unfold canjearVoucher
    simp only [hfind]
    rw [if_pos husado]
  have hV : v.usado = false → v.fechaVencimiento < now →
      canjearVoucher now emp db codigo =
        ({ success := false, message := "Este voucher está vencido",
           descuento := v.descuento }, db) := by
    intro husado hvenc
    unfold canjearVoucher
    simp only [hfind]
    rw [if_neg (by simp [husado]), if_pos hvenc]
  refine ⟨hU, hV, ?_⟩
  intro hsucc
  cases hbu : v.usado with
  | true =>
    rw [hU hbu] at hsucc
    simp at hsucc
  | false =>
    by_cases hvc : v.fechaVencimiento < now
    · rw [hV hbu hvc] at hsucc
      simp at hsucc
    · have hdb2 : (canjearVoucher now emp db codigo).2 =
          actualizarVoucherDB db
            { v with usado := true, fechaUso := some now, usuarioCanje := some emp } := by
        unfold canjearVoucher
        simp only [hfind]
        rw [if_neg (by simp [hbu]), if_neg hvc]
      have hfind2 : buscarVoucherPorCodigo
          (actualizarVoucherDB db
            { v with usado := true, fechaUso := some now, usuarioCanje := some emp })
          codigo =
          some { v with usado := true, fechaUso := some now, usuarioCanje := some emp } := by
        unfold buscarVoucherPorCodigo actualizarVoucherDB
        unfold buscarVoucherPorCodigo at hfind
        have hpv := List.find?_some hfind
        have hkey : Voucher.id
            { v with usado := true, fechaUso := some now, usuarioCanje := some emp } =
            v.id := rfl
        exact find?_map_update (fun x => x.codigo == codigo) (fun x => x.id)
          db.vouchers v
          { v with usado := true, fechaUso := some now, usuarioCanje := some emp }
          hfind hkey hpv
      constructor
      · rw [hdb2]
        unfold canjearVoucher
        simp only [hfind2]
        rfl
      · rw [hdb2]
        unfold canjearVoucher
        simp only [hfind2]
        rfl

theorem canjearVoucher_rechazos_witness :
    buscarVoucherPorCodigo
      ⟨[⟨1, "Ana", "Perez", "+541112345678", 0, none, 3, 2, 1, "activo"⟩],
       [⟨1, "CH0000100007", 1, "juego_ganado", 30, some true, 0, 2592000, none, false,
         none, ""⟩], 2, 2⟩ "CH0000100007" =
      some ⟨1, "CH0000100007", 1, "juego_ganado", 30, some true, 0, 2592000, none, false,
        none, ""⟩ ∧
    ((canjearVoucher 100 5
        ⟨[⟨1, "Ana", "Perez", "+541112345678", 0, none, 3, 2, 1, "activo"⟩],
         [⟨1, "CH0000100007", 1, "juego_ganado", 30, some true, 0, 2592000, none, false,
           none, ""⟩], 2, 2⟩ "CH0000100007").1.success = true →
      (canjearVoucher 200 6
        (canjearVoucher 100 5
          ⟨[⟨1, "Ana", "Perez", "+541112345678", 0, none, 3, 2, 1, "activo"⟩],
           [⟨1, "CH0000100007", 1, "juego_ganado", 30, some true, 0, 2592000, none, false,
             none, ""⟩], 2, 2⟩ "CH0000100007").2 "CH0000100007").1.success = false ∧
      (canjearVoucher 200 6
        (canjearVoucher 100 5
          ⟨[⟨1, "Ana", "Perez", "+541112345678", 0, none, 3, 2, 1, "activo"⟩],
           [⟨1, "CH0000100007", 1, "juego_ganado", 30, some true, 0, 2592000, none, false,
             none, ""⟩], 2, 2⟩ "CH0000100007").2 "CH0000100007").2 =
        (canjearVoucher 100 5
          ⟨[⟨1, "Ana", "Perez", "+541112345678", 0, none, 3, 2, 1, "activo"⟩],
           [⟨1, "CH0000100007", 1, "juego_ganado", 30, some true, 0, 2592000, none, false,
             none, ""⟩], 2, 2⟩ "CH0000100007").2) :=
  ⟨by with_unfolding_all rfl,
   (canjearVoucher_rechazos 100 200 5 6
     ⟨[⟨1, "Ana", "Perez", "+541112345678", 0, none, 3, 2, 1, "activo"⟩],
      [⟨1, "CH0000100007", 1, "juego_ganado", 30, some true, 0, 2592000, none, false,
        none, ""⟩], 2, 2⟩ "CH0000100007"
     ⟨1, "CH0000100007", 1, "juego_ganado", 30, some true, 0, 2592000, none, false,
       none, ""⟩ (by with_unfolding_all rfl)).2.2⟩

/-- C5: on every accepted submission exactly one voucher is appended; its
discount is the configured win percentage when the evaluator reports a win
and the configured lose percentage otherwise, the response reports that same
discount, and the expiry timestamp is the issue timestamp plus the
configured validity window in days. -/
theorem procesar_voucher_spec (cfg : GameConfig) (pv : PhoneValidation) (now : ℤ)
    (ts rnd : Nat) (db : DB) (gr : GameResult)
    (h : (procesarResultadoJuego cfg pv now ts rnd db gr).1.success = true) :
    ∃ v : Voucher,
      (procesarResultadoJuego cfg pv now ts rnd db gr).2.vouchers =
        db.vouchers ++ [v] ∧
      v.descuento = (if determinarSiGano cfg gr.resultado = true then cfg.winDiscount
        else cfg.loseDiscount) ∧
      (procesarResultadoJuego cfg pv now ts rnd db gr).1.descuento = v.descuento ∧
      v.fechaEmision = now ∧
      v.fechaVencimiento = v.fechaEmision + cfg.voucherValidityDays * secondsPerDay := by
  cases htel : ValidarTelefonoArgentino pv (NormalizarTelefono gr.clienteData.telefono) with
  | error e =>
    rw [procesar_phone_error_eq cfg pv now ts rnd db gr e htel] at h
    simp at h
  | ok u =>
    cases u
    cases hdatos : validarDatosJuego cfg gr.resultado with
    | error e =>
      rw [procesar_datos_error_eq cfg pv now ts rnd db gr e htel hdatos] at h
      simp at h
    | ok u2 =>
      cases u2
      by_cases hgate : cfg.gamesRequireApproval ≤ (pasoCliente now db gr).1.totalJuegos
      · rw [procesar_decline_eq cfg pv now ts rnd db gr htel hdatos hgate] at h
        simp at h
      · rw [procesar_success_eq cfg pv now ts rnd db gr htel hdatos hgate]
        refine ⟨(pasoVoucher cfg now ts rnd db gr).1, ?_, ?_, rfl, ?_, ?_⟩
        · show (pasoVoucher cfg now ts rnd db gr).2.vouchers = _
          unfold pasoVoucher pasoCliente
          rw [crearVoucher_vouchers, crearOBuscar_vouchers]
        · unfold pasoVoucher
          exact (crearVoucher_campos cfg now ts rnd (pasoCliente now db gr).2.2
            (pasoCliente now db gr).1 (determinarSiGano cfg gr.resultado)).1
        · unfold pasoVoucher
          exact (crearVoucher_campos cfg now ts rnd (pasoCliente now db gr).2.2
            (pasoCliente now db gr).1 (determinarSiGano cfg gr.resultado)).2.1
        · unfold pasoVoucher
          rw [(crearVoucher_campos cfg now ts rnd (pasoCliente now db gr).2.2
            (pasoCliente now db gr).1 (determinarSiGano cfg gr.resultado)).2.1]
          exact (crearVoucher_campos cfg now ts rnd (pasoCliente now db gr).2.2
            (pasoCliente now db gr).1 (determinarSiGano cfg gr.resultado)).2.2.1

theorem procesar_voucher_spec_witness :
    (procesarResultadoJuego defaultGameConfig getPhoneValidation 1000 50 7 ⟨[], [], 1, 1⟩
        ⟨⟨"Ana", "Gomez", "+541112345678"⟩, ⟨false, 10, 10, 0⟩⟩).1.success = true ∧
    (∃ v : Voucher,
      (procesarResultadoJuego defaultGameConfig getPhoneValidation 1000 50 7 ⟨[], [], 1, 1⟩
          ⟨⟨"Ana", "Gomez", "+541112345678"⟩, ⟨false, 10, 10, 0⟩⟩).2.vouchers = [] ++ [v] ∧
      v.descuento = (if determinarSiGano defaultGameConfig ⟨false, 10, 10, 0⟩ = true then
        defaultGameConfig.winDiscount else defaultGameConfig.loseDiscount) ∧
      (procesarResultadoJuego defaultGameConfig getPhoneValidation 1000 50 7 ⟨[], [], 1, 1⟩
          ⟨⟨"Ana", "Gomez", "+541112345678"⟩, ⟨false, 10, 10, 0⟩⟩).1.descuento =
        v.descuento ∧
      v.fechaEmision = 1000 ∧
      v.fechaVencimiento = v.fechaEmision +
        defaultGameConfig.voucherValidityDays * secondsPerDay) :=
  ⟨by with_unfolding_all rfl,
   procesar_voucher_spec defaultGameConfig getPhoneValidation 1000 50 7 ⟨[], [], 1, 1⟩
     ⟨⟨"Ana", "Gomez", "+541112345678"⟩, ⟨false, 10, 10, 0⟩⟩ (by with_unfolding_all rfl)⟩

/-- C3 counterexample: a submission by a customer at the approval threshold
is declined (`necesitaAprobacion` is signalled), yet the stored customer
record *is* mutated: the find-or-create step that runs before the gate
overwrites the stored name with the newly submitted one. -/
theorem procesar_gate_mutacion_cex :
    (procesarResultadoJuego defaultGameConfig getPhoneValidation 1000 50 7
        ⟨[⟨1, "Ana", "Perez", "+541112345678", 0, none, 3, 2, 1, "activo"⟩], [], 2, 1⟩
        ⟨⟨"Bob", "Perez", "+541112345678"⟩, ⟨false, 10, 10, 0⟩⟩).1.necesitaAprobacion =
      true ∧
    ¬ ((procesarResultadoJuego defaultGameConfig getPhoneValidation 1000 50 7
        ⟨[⟨1, "Ana", "Perez", "+541112345678", 0, none, 3, 2, 1, "activo"⟩], [], 2, 1⟩
        ⟨⟨"Bob", "Perez", "+541112345678"⟩, ⟨false, 10, 10, 0⟩⟩).2.clientes =
      [⟨1, "Ana", "Perez", "+541112345678", 0, none, 3, 2, 1, "activo"⟩]) := by
  constructor
  · with_unfolding_all rfl
  · with_unfolding_all decide

/-- C3 (amended): when the looked-up customer's play total has reached the
configured approval threshold (and phone and game data validate), processing
refuses with the staff-approval signal before any voucher work; on every
declined submission no voucher is created and the customers' identifiers and
play counters are unchanged — though the stored name may be overwritten by
the find-or-create step that precedes the gate. -/
theorem procesar_gate_spec (cfg : GameConfig) (pv : PhoneValidation) (now : ℤ)
    (ts rnd : Nat) (db : DB) (gr : GameResult) (c : Cliente)
    (hpos : 0 < cfg.gamesRequireApproval)
    (hnd : (db.clientes.map (fun x => x.id)).Nodup) :
    (buscarClientePorTelefono db (NormalizarTelefono gr.clienteData.telefono) = some c →
      cfg.gamesRequireApproval ≤ c.totalJuegos →
      ValidarTelefonoArgentino pv (NormalizarTelefono gr.clienteData.telefono) =
        Except.ok () →
      validarDatosJuego cfg gr.resultado = Except.ok () →
      (procesarResultadoJuego cfg pv now ts rnd db gr).1.success = false ∧
      (procesarResultadoJuego cfg pv now ts rnd db gr).1.necesitaAprobacion = true) ∧
    ((procesarResultadoJuego cfg pv now ts rnd db gr).1.necesitaAprobacion = true →
      (procesarResultadoJuego cfg pv now ts rnd db gr).2.vouchers = db.vouchers ∧
      (procesarResultadoJuego cfg pv now ts rnd db gr).2.clientes.map
          (fun x => (x.id, x.totalJuegos, x.juegosGanados, x.juegosPerdidos)) =
        db.clientes.map
          (fun x => (x.id, x.totalJuegos, x.juegosGanados, x.juegosPerdidos))) := by
  constructor
  · intro hf hge htel hdatos
    have hgate : cfg.gamesRequireApproval ≤ (pasoCliente now db gr).1.totalJuegos := by
      unfold pasoCliente
      by_cases hne : c.nombre ≠ gr.clienteData.nombre ∨ c.apellido ≠ gr.clienteData.apellido
      · rw [crearOBuscar_some_cambio now db
          ⟨gr.clienteData.nombre, gr.clienteData.apellido,
            NormalizarTelefono gr.clienteData.telefono⟩ c hf hne]
        exact hge
      · rw [crearOBuscar_some_igual now db
          ⟨gr.clienteData.nombre, gr.clienteData.apellido,
            NormalizarTelefono gr.clienteData.telefono⟩ c hf hne]
        exact hge
    rw [procesar_decline_eq cfg pv now ts rnd db gr htel hdatos hgate]
    exact ⟨rfl, rfl⟩
  · intro hna
    cases htel : ValidarTelefonoArgentino pv (NormalizarTelefono gr.clienteData.telefono) with
    | error e =>
      rw [procesar_phone_error_eq cfg pv now ts rnd db gr e htel] at hna
      simp at hna
    | ok u =>
      cases u
      cases hdatos : validarDatosJuego cfg gr.resultado with
      | error e =>
        rw [procesar_datos_error_eq cfg pv now ts rnd db gr e htel hdatos] at hna
        simp at hna
      | ok u2 =>
        cases u2
        by_cases hgate : cfg.gamesRequireApproval ≤ (pasoCliente now db gr).1.totalJuegos
        · rw [procesar_decline_eq cfg pv now ts rnd db gr htel hdatos hgate]
          cases hfc : buscarClientePorTelefono db (NormalizarTelefono gr.clienteData.telefono) with
          | none =>
            exfalso
            unfold pasoCliente at hgate
            rw [crearOBuscar_none now db
              ⟨gr.clienteData.nombre, gr.clienteData.apellido,
                NormalizarTelefono gr.clienteData.telefono⟩ hfc] at hgate
            simp at hgate
            omega
          | some cx =>
            by_cases hne : cx.nombre ≠ gr.clienteData.nombre ∨
                cx.apellido ≠ gr.clienteData.apellido
            · unfold pasoCliente
              rw [crearOBuscar_some_cambio now db
                ⟨gr.clienteData.nombre, gr.clienteData.apellido,
                  NormalizarTelefono gr.clienteData.telefono⟩ cx hfc hne]
              have hfc' : db.clientes.find?
                  (fun x => x.telefono == NormalizarTelefono gr.clienteData.telefono) =
                  some cx := hfc
              exact ⟨rfl,
                map_update_proj db.clientes cx
                  { cx with nombre := gr.clienteData.nombre, apellido := gr.clienteData.apellido }
                  (fun x => (x.id, x.totalJuegos, x.juegosGanados, x.juegosPerdidos))
                  (List.mem_of_find?_eq_some hfc') rfl rfl hnd⟩
            · unfold pasoCliente
              rw [crearOBuscar_some_igual now db
                ⟨gr.clienteData.nombre, gr.clienteData.apellido,
                  NormalizarTelefono gr.clienteData.telefono⟩ cx hfc hne]
              exact ⟨rfl, rfl⟩
        · rw [procesar_success_eq cfg pv now ts rnd db gr htel hdatos hgate] at hna
          simp at hna

theorem procesar_gate_spec_witness :
    (0 : ℤ) < defaultGameConfig.gamesRequireApproval ∧
    ((buscarClientePorTelefono
        ⟨[⟨1, "Ana", "Perez", "+541112345678", 0, none, 3, 2, 1, "activo"⟩], [], 2, 1⟩
        (NormalizarTelefono "+541112345678") =
          some ⟨1, "Ana", "Perez", "+541112345678", 0, none, 3, 2, 1, "activo"⟩ →
      defaultGameConfig.gamesRequireApproval ≤ (3 : ℤ) →
      ValidarTelefonoArgentino getPhoneValidation (NormalizarTelefono "+541112345678") =
        Except.ok () →
      validarDatosJuego defaultGameConfig ⟨false, 10, 10, 0⟩ = Except.ok () →
      (procesarResultadoJuego defaultGameConfig getPhoneValidation 1000 50 7
        ⟨[⟨1, "Ana", "Perez", "+541112345678", 0, none, 3, 2, 1, "activo"⟩], [], 2, 1⟩
        ⟨⟨"Bob", "Perez", "+541112345678"⟩, ⟨false, 10, 10, 0⟩⟩).1.success = false ∧
      (procesarResultadoJuego defaultGameConfig getPhoneValidation 1000 50 7
        ⟨[⟨1, "Ana", "Perez", "+541112345678", 0, none, 3, 2, 1, "activo"⟩], [], 2, 1⟩
        ⟨⟨"Bob", "Perez", "+541112345678"⟩, ⟨false, 10, 10, 0⟩⟩).1.necesitaAprobacion =
        true) ∧
     ((procesarResultadoJuego defaultGameConfig getPhoneValidation 1000 50 7
        ⟨[⟨1, "Ana", "Perez", "+541112345678", 0, none, 3, 2, 1, "activo"⟩], [], 2, 1⟩
        ⟨⟨"Bob", "Perez", "+541112345678"⟩, ⟨false, 10, 10, 0⟩⟩).1.necesitaAprobacion =
          true →
      (procesarResultadoJuego defaultGameConfig getPhoneValidation 1000 50 7
        ⟨[⟨1, "Ana", "Perez", "+541112345678", 0, none, 3, 2, 1, "activo"⟩], [], 2, 1⟩
        ⟨⟨"Bob", "Perez", "+541112345678"⟩, ⟨false, 10, 10, 0⟩⟩).2.vouchers = [] ∧
      (procesarResultadoJuego defaultGameConfig getPhoneValidation 1000 50 7
        ⟨[⟨1, "Ana", "Perez", "+541112345678", 0, none, 3, 2, 1, "activo"⟩], [], 2, 1⟩
        ⟨⟨"Bob", "Perez", "+541112345678"⟩,
          ⟨false, 10, 10, 0⟩⟩).2.clientes.map
          (fun x => (x.id, x.totalJuegos, x.juegosGanados, x.juegosPerdidos)) =
        ([⟨1, "Ana", "Perez", "+541112345678", 0, none, 3, 2, 1, "activo"⟩] :
            List Cliente).map
          (fun x => (x.id, x.totalJuegos, x.juegosGanados, x.juegosPerdidos)))) :=
  ⟨by decide,
   procesar_gate_spec defaultGameConfig getPhoneValidation 1000 50 7
     ⟨[⟨1, "Ana", "Perez", "+541112345678", 0, none, 3, 2, 1, "activo"⟩], [], 2, 1⟩
     ⟨⟨"Bob", "Perez", "+541112345678"⟩, ⟨false, 10, 10, 0⟩⟩
     ⟨1, "Ana", "Perez", "+541112345678", 0, none, 3, 2, 1, "activo"⟩
     (by decide) (by simp)⟩

/-- C7: under the store's primary-key invariants (distinct customer ids, all
below the auto-increment counter), no customer's total-play counter ever
decreases across a processed submission, an accepted submission increases
the submitting customer's counter by exactly 1, and voucher redemption
leaves the customers table untouched. -/
theorem procesar_contador_spec (cfg : GameConfig) (pv : PhoneValidation) (now : ℤ)
    (ts rnd : Nat) (db : DB) (gr : GameResult) (now2 : ℤ) (emp : Nat) (cod : String)
    (hnd : (db.clientes.map (fun x => x.id)).Nodup)
    (hfresh : ∀ x ∈ db.clientes, x.id < db.nextClienteID) :
    countersMono db.clientes (procesarResultadoJuego cfg pv now ts rnd db gr).2.clientes ∧
    ((procesarResultadoJuego cfg pv now ts rnd db gr).1.success = true →
      totalJuegosDe (procesarResultadoJuego cfg pv now ts rnd db gr).2
          (NormalizarTelefono gr.clienteData.telefono) =
        totalJuegosDe db (NormalizarTelefono gr.clienteData.telefono) + 1) ∧
    (canjearVoucher now2 emp db cod).2.clientes = db.clientes :=
  ⟨procesar_mono cfg pv now ts rnd db gr hnd hfresh,
   fun hsuc => procesar_inc cfg pv now ts rnd db gr hsuc,
   canjear_clientes now2 emp db cod⟩

theorem procesar_contador_spec_witness :
    (((⟨[], [], 1, 1⟩ : DB).clientes.map (fun x => x.id)).Nodup ∧
      ∀ x ∈ (⟨[], [], 1, 1⟩ : DB).clientes, x.id < (⟨[], [], 1, 1⟩ : DB).nextClienteID) ∧
    countersMono ([] : List Cliente)
      (procesarResultadoJuego defaultGameConfig getPhoneValidation 1000 50 7 ⟨[], [], 1, 1⟩
        ⟨⟨"Ana", "Gomez", "+541112345678"⟩, ⟨false, 10, 10, 0⟩⟩).2.clientes ∧
    ((procesarResultadoJuego defaultGameConfig getPhoneValidation 1000 50 7 ⟨[], [], 1, 1⟩
        ⟨⟨"Ana", "Gomez", "+541112345678"⟩, ⟨false, 10, 10, 0⟩⟩).1.success = true →
      totalJuegosDe
          (procesarResultadoJuego defaultGameConfig getPhoneValidation 1000 50 7
            ⟨[], [], 1, 1⟩
            ⟨⟨"Ana", "Gomez", "+541112345678"⟩, ⟨false, 10, 10, 0⟩⟩).2
          (NormalizarTelefono "+541112345678") =
        totalJuegosDe ⟨[], [], 1, 1⟩ (NormalizarTelefono "+541112345678") + 1) ∧
    (canjearVoucher 0 0 ⟨[], [], 1, 1⟩ "X").2.clientes = [] :=
  ⟨⟨by simp, by simp⟩,
   procesar_contador_spec defaultGameConfig getPhoneValidation 1000 50 7 ⟨[], [], 1, 1⟩
     ⟨⟨"Ana", "Gomez", "+541112345678"⟩, ⟨false, 10, 10, 0⟩⟩ 0 0 "X"
     (by simp) (by simp)⟩

end CheeseHouse
